import Mathlib

/-!
Verification development for the zCore kernel core: a shallow embedding of
the physical VMO (src/zircon-object/src/vm/vmo/physical.rs), the VmObject
wrapper (src/zircon-object/src/vm/vmo/mod.rs), the linux ELF loader
(src/linux-loader/src/lib.rs) and the bti_pin syscall validation
(src/zircon-syscall/src/ddk.rs), with theorems settling the spec claims.

Machine integers are modelled as Nat: no claim in scope depends on wrap
around, and offsets/sizes in the kernel paths under study stay far below
2^64. Rust panics (assert!, unimplemented!, unwrap, expect) are modelled
as the Outcome.panic constructor.
-/

namespace ZCore

/-- Page size of the platform; the loader and VM layers use 4 KiB pages. -/
def PAGE_SIZE : Nat := 4096

/-- Modelled from the spec: the zircon-object vm helper pages, the number of
pages needed to hold n bytes (ceiling division); the helper module itself is
not under src. -/
def pages (n : Nat) : Nat := (n + PAGE_SIZE - 1) / PAGE_SIZE

/-- Modelled from the spec: the zircon-object vm helper page_aligned. -/
def page_aligned (x : Nat) : Bool := x % PAGE_SIZE == 0

/-- Error kinds of the kernel (ZxError), restricted to those the claims touch. -/
inductive ZxError
  | INVALID_ARGS
  | ACCESS_DENIED
  | NOT_SUPPORTED
  | UNAVAILABLE
  | BAD_HANDLE
  | WRONG_TYPE
  | NO_MEMORY
  | OUT_OF_RANGE
deriving DecidableEq

/-- Outcome of running a piece of Rust code: normal return, an error return,
or a panic (assert!, unimplemented!, unwrap on an error). -/
inductive Outcome (ε : Type) (α : Type)
  | ok (v : α)
  | err (e : ε)
  | panic
deriving DecidableEq

/-- Functorial action on the ok value of an Outcome. -/
def Outcome.map (f : α → β) : Outcome ε α → Outcome ε β
  | Outcome.ok v => Outcome.ok (f v)
  | Outcome.err e => Outcome.err e
  | Outcome.panic => Outcome.panic

/-- Whether an Outcome is a normal return. -/
def Outcome.isOk : Outcome ε α → Bool
  | Outcome.ok _ => true
  | _ => false

/-- Byte-wise store of a buffer into a memory function at a base address. -/
def storeBytes (m : Nat → Nat) (base : Nat) (buf : List Nat) : Nat → Nat :=
  fun a => if base ≤ a ∧ a < base + buf.length then buf.getD (a - base) 0 else m a

/-- Modelled from the spec: the HAL primitive pmem_read, a synchronous copy of
n bytes out of physical memory (kernel-hal is not under src). -/
def pmem_read (pmem : Nat → Nat) (paddr n : Nat) : List Nat :=
  (List.range n).map fun i => pmem (paddr + i)

/-- Modelled from the spec: the HAL primitive pmem_write, a synchronous copy of
a buffer into physical memory. -/
def pmem_write (pmem : Nat → Nat) (paddr : Nat) (buf : List Nat) : Nat → Nat :=
  storeBytes pmem paddr buf

/-! Physical VMO: src/zircon-object/src/vm/vmo/physical.rs. The data_lock
field only serializes access and carries no data; it is not modelled. -/

/-- VMO representing a contiguous physical range, fields paddr and pages. -/
structure VMObjectPhysical where
  paddr : Nat
  pages : Nat
deriving DecidableEq

/-- Constructor VMObjectPhysical::new: asserts page_aligned paddr. -/
def VMObjectPhysical.new (paddr npages : Nat) : Outcome ZxError VMObjectPhysical :=
  if page_aligned paddr then Outcome.ok ⟨paddr, npages⟩ else Outcome.panic

/-- Length in bytes: pages * PAGE_SIZE. -/
def VMObjectPhysical.len (v : VMObjectPhysical) : Nat := v.pages * PAGE_SIZE

/-- VMObjectPhysical::read: asserts offset + buf.len() <= self.len() (panic on
violation), then copies via pmem_read. -/
def VMObjectPhysical.read (v : VMObjectPhysical) (pmem : Nat → Nat)
    (offset bufLen : Nat) : Outcome ZxError (List Nat) :=
  if offset + bufLen ≤ v.len then
    Outcome.ok (pmem_read pmem (v.paddr + offset) bufLen)
  else Outcome.panic

/-- VMObjectPhysical::write: asserts offset + buf.len() <= self.len() (panic on
violation), then copies via pmem_write. -/
def VMObjectPhysical.write (v : VMObjectPhysical) (pmem : Nat → Nat)
    (offset : Nat) (buf : List Nat) : Outcome ZxError (Nat → Nat) :=
  if offset + buf.length ≤ v.len then
    Outcome.ok (pmem_write pmem (v.paddr + offset) buf)
  else Outcome.panic

/-- VMObjectPhysical::set_len is unimplemented!() and panics. -/
def VMObjectPhysical.set_len (_v : VMObjectPhysical) (_len : Nat) :
    Outcome ZxError Unit := Outcome.panic

/-- VMObjectPhysical::commit is unimplemented!() and panics. -/
def VMObjectPhysical.commit (_v : VMObjectPhysical) (_offset _len : Nat) :
    Outcome ZxError Unit := Outcome.panic

/-- VMObjectPhysical::decommit is unimplemented!() and panics. -/
def VMObjectPhysical.decommit (_v : VMObjectPhysical) (_offset _len : Nat) :
    Outcome ZxError Unit := Outcome.panic

/-- VMObjectPhysical::create_child is unimplemented!() and panics. -/
def VMObjectPhysical.create_child (_v : VMObjectPhysical) (_offset _len : Nat) :
    Outcome ZxError VMObjectPhysical := Outcome.panic

/-- VMObjectPhysical::get_page returns paddr + page_idx * PAGE_SIZE. -/
def VMObjectPhysical.get_page (v : VMObjectPhysical) (page_idx : Nat) : Nat :=
  v.paddr + page_idx * PAGE_SIZE

/-! VmObject wrapper: src/zircon-object/src/vm/vmo/mod.rs, restricted to the
physical-backed variant (paged.rs is not under src; the paged variant is
modelled separately for the loader claims). -/

/-- VmObject wrapper over a physical inner object, keeping the resizable flag
(KObjectBase bookkeeping is not modelled; no claim touches it). -/
structure VmObject where
  resizable : Bool
  inner : VMObjectPhysical
deriving DecidableEq

/-- VmObject::new_physical: wraps VMObjectPhysical::new with resizable set to
true (as the source literally does). -/
def VmObject.new_physical (paddr npages : Nat) : Outcome ZxError VmObject :=
  (VMObjectPhysical.new paddr npages).map fun inner => VmObject.mk true inner

/-- VmObject::set_len: if resizable, forwards to the inner set_len, else
returns UNAVAILABLE. -/
def VmObject.set_len (v : VmObject) (len : Nat) : Outcome ZxError Unit :=
  if v.resizable then v.inner.set_len len else Outcome.err ZxError.UNAVAILABLE

/-- VmObject commit forwards to the inner object through Deref. -/
def VmObject.commit (v : VmObject) (offset len : Nat) : Outcome ZxError Unit :=
  v.inner.commit offset len

/-- VmObject decommit forwards to the inner object through Deref. -/
def VmObject.decommit (v : VmObject) (offset len : Nat) : Outcome ZxError Unit :=
  v.inner.decommit offset len

/-- VmObject::create_child wraps the inner create_child result. -/
def VmObject.create_child (v : VmObject) (resizable : Bool) (offset len : Nat) :
    Outcome ZxError VmObject :=
  (v.inner.create_child offset len).map fun inner => VmObject.mk resizable inner

/-! ELF loader: src/linux-loader/src/lib.rs. -/

/-- MMU flags as a set of the three permission bits the loader projects
(kernel-hal MMUFlags is a bitflags set; each relevant flag is a field). -/
structure MMUFlags where
  read : Bool
  write : Bool
  execute : Bool
deriving DecidableEq

/-- Empty MMU flag set. -/
def MMUFlags.empty : MMUFlags := ⟨false, false, false⟩

/-- The READ flag. -/
def MMUFlags.READ : MMUFlags := ⟨true, false, false⟩

/-- The WRITE flag. -/
def MMUFlags.WRITE : MMUFlags := ⟨false, true, false⟩

/-- The EXECUTE flag. -/
def MMUFlags.EXECUTE : MMUFlags := ⟨false, false, true⟩

/-- Bitset insert (union) on MMU flags. -/
def MMUFlags.insert (a b : MMUFlags) : MMUFlags :=
  ⟨a.read || b.read, a.write || b.write, a.execute || b.execute⟩

/-- Bitset containment test on MMU flags. -/
def MMUFlags.contains (a b : MMUFlags) : Bool :=
  (!b.read || a.read) && (!b.write || a.write) && (!b.execute || a.execute)

/-- ELF segment flag word p_flags; per the ELF standard (xmas_elf crate)
bit 0 is execute, bit 1 is write, bit 2 is read. -/
structure Flags where
  bits : Nat
deriving DecidableEq

/-- Flags::is_read tests bit 2 (value 4). -/
def Flags.is_read (f : Flags) : Bool := f.bits &&& 4 == 4

/-- Flags::is_write tests bit 1 (value 2). -/
def Flags.is_write (f : Flags) : Bool := f.bits &&& 2 == 2

/-- Flags::is_execute tests bit 0 (value 1). -/
def Flags.is_execute (f : Flags) : Bool := f.bits &&& 1 == 1

/-- FlagsExt::to_mmu_flags: starts empty and inserts READ / WRITE / EXECUTE
exactly for the corresponding segment-flag bits. -/
def Flags.to_mmu_flags (f : Flags) : MMUFlags :=
  let flags0 := MMUFlags.empty
  let flags1 := if f.is_read then flags0.insert MMUFlags.READ else flags0
  let flags2 := if f.is_write then flags1.insert MMUFlags.WRITE else flags1
  if f.is_execute then flags2.insert MMUFlags.EXECUTE else flags2

/-- Modelled from the spec: the paged VMO (src/zircon-object/src/vm/vmo/paged.rs
is not under src). Frames are zero-filled until written; write requires
offset + buf.len() <= len (violation modelled as panic, matching the assert
style of this commit). Contents are a byte function, length is pages * PAGE_SIZE. -/
structure VMObjectPaged where
  pages : Nat
  data : Nat → Nat

/-- VMObjectPaged::new: pages pages, all bytes zero. -/
def VMObjectPaged.new (npages : Nat) : VMObjectPaged := ⟨npages, fun _ => 0⟩

/-- Length in bytes of a paged VMO. -/
def VMObjectPaged.len (v : VMObjectPaged) : Nat := v.pages * PAGE_SIZE

/-- Modelled from the spec: paged VMO write requires offset + buf.len() <= len
and stores the buffer bytes. -/
def VMObjectPaged.write (v : VMObjectPaged) (offset : Nat) (buf : List Nat) :
    Outcome ZxError VMObjectPaged :=
  if offset + buf.length ≤ v.len then
    Outcome.ok ⟨v.pages, storeBytes v.data offset buf⟩
  else Outcome.panic

/-- Modelled from the spec: paged VMO read requires offset + n <= len. -/
def VMObjectPaged.read (v : VMObjectPaged) (offset n : Nat) :
    Outcome ZxError (List Nat) :=
  if offset + n ≤ v.len then
    Outcome.ok ((List.range n).map fun i => v.data (offset + i))
  else Outcome.panic

/-- Program header type: the loader only distinguishes LOAD from the rest. -/
inductive PhType
  | Load
  | other
deriving DecidableEq

/-- Result of ProgramHeader::get_data: the loader only accepts
SegmentData::Undefined (raw bytes); anything else is INVALID_ARGS. -/
inductive SegmentData
  | Undefined (data : List Nat)
  | other
deriving DecidableEq

/-- One ELF program header with the fields the loader reads. -/
structure ProgramHeader where
  type_ : PhType
  virtual_addr : Nat
  mem_size : Nat
  flags : Flags
  data : SegmentData
deriving DecidableEq

/-- One .rela.dyn entry: type, r_offset, symbol-table index, r_addend. -/
structure RelaEntry where
  rtype : Nat
  offset : Nat
  symIdx : Nat
  addend : Nat
deriving DecidableEq

/-- One .dynsym entry: value, section header index, and whether get_name on it
succeeds (the loader reads the name only for undefined symbols). -/
structure DynEntry64 where
  value : Nat
  shndx : Nat
  name_ok : Bool
deriving DecidableEq

/-- Possible shapes of the .rela.dyn section as seen through get_data:
Rela64 entries, a corrupted section (get_data error), or some other variant. -/
inductive RelaSection
  | rela64 (entries : List RelaEntry)
  | corrupt
  | other
deriving DecidableEq

/-- Possible shapes of the .dynsym section as seen through get_data. -/
inductive DynSection
  | dynSymbolTable64 (entries : List DynEntry64)
  | corrupt
  | other
deriving DecidableEq

/-- The ELF image as the loader consumes it: program headers, the header
fields used for the auxv, the two dynamic sections, and the resolved value of
the rcore_syscall_entry symbol (get_symbol_address walks the symbol tables;
its section walk is abstracted to its result). -/
structure ElfFile where
  program_headers : List ProgramHeader
  entry_point : Nat
  ph_offset : Nat
  ph_entry_size : Nat
  ph_count : Nat
  rela_dyn : Option RelaSection
  dynsym_sec : Option DynSection
  syscall_entry_symbol : Option Nat
deriving DecidableEq

/-- Error messages relocate and dynsym return (as a closed enumeration of the
static strings in the source). -/
inductive RelocError
  | relaDynNotFound
  | corruptedRelaDyn
  | badRelaDyn
  | dynsymNotFound
  | corruptedDynsym
  | badDynsym
  | symbolNameError
deriving DecidableEq

/-- ElfExt::dynsym: finds .dynsym, requires DynSymbolTable64 data. -/
def ElfFile.dynsym (elf : ElfFile) : Outcome RelocError (List DynEntry64) :=
  match elf.dynsym_sec with
  | none => Outcome.err RelocError.dynsymNotFound
  | some DynSection.corrupt => Outcome.err RelocError.corruptedDynsym
  | some DynSection.other => Outcome.err RelocError.badDynsym
  | some (DynSection.dynSymbolTable64 entries) => Outcome.ok entries

/-- The relocation loop of ElfExt::relocate over the .rela.dyn entries.
Returns the list of (address, value) machine-word stores performed, in order,
together with the final status: GOT(6)/PLT(7) look up dynsym and panic on an
undefined symbol (shndx == 0) whose name resolves, or return the name error;
a missing index panics (slice indexing); RELATIVE(8) stores base + addend;
any other type panics (unimplemented!). -/
def relocEntries (dynsym : List DynEntry64) (base : Nat) :
    List RelaEntry → List (Nat × Nat) × Outcome RelocError Unit
  | [] => ([], Outcome.ok ())
  | e :: rest =>
    if e.rtype = 6 ∨ e.rtype = 7 then
      match dynsym.get? e.symIdx with
      | none => ([], Outcome.panic)
      | some d =>
        if d.shndx = 0 then
          if d.name_ok then ([], Outcome.panic)
          else ([], Outcome.err RelocError.symbolNameError)
        else
          let r := relocEntries dynsym base rest
          ((base + e.offset, base + d.value + e.addend) :: r.1, r.2)
    else if e.rtype = 8 then
      let r := relocEntries dynsym base rest
      ((base + e.offset, base + e.addend) :: r.1, r.2)
    else ([], Outcome.panic)

/-- ElfExt::relocate: finds .rela.dyn, requires Rela64 data, obtains dynsym,
then runs the relocation loop. -/
def ElfFile.relocate (elf : ElfFile) (base : Nat) :
    List (Nat × Nat) × Outcome RelocError Unit :=
  match elf.rela_dyn with
  | none => ([], Outcome.err RelocError.relaDynNotFound)
  | some RelaSection.corrupt => ([], Outcome.err RelocError.corruptedRelaDyn)
  | some RelaSection.other => ([], Outcome.err RelocError.badRelaDyn)
  | some (RelaSection.rela64 entries) =>
    match elf.dynsym with
    | Outcome.err e => ([], Outcome.err e)
    | Outcome.panic => ([], Outcome.panic)
    | Outcome.ok dynsym => relocEntries dynsym base entries

/-- Iterator max over a list of Nat, as Rust Iterator::max (none on empty). -/
def maxNatList : List Nat → Option Nat
  | [] => none
  | x :: xs =>
    match maxNatList xs with
    | none => some x
    | some m => some (max x m)

/-- ElfExt::load_segment_size: filters LOAD headers, maps each to
pages(virtual_addr + mem_size), takes the iterator max, multiplies by
PAGE_SIZE. The unwrap on an image without LOAD headers is the none case. -/
def ElfFile.load_segment_size (elf : ElfFile) : Option Nat :=
  (maxNatList ((elf.program_headers.filter fun ph =>
      decide (ph.type_ = PhType.Load)).map fun ph =>
        pages (ph.virtual_addr + ph.mem_size))).map fun m => m * PAGE_SIZE

/-- The size formula exactly as the claim words it: the maximum over all LOAD
headers of pages(virtual_addr + mem_size), times PAGE_SIZE (stated with a
fold so it is total; compared against the source definition in the theorem). -/
def load_segment_size_spec (elf : ElfFile) : Nat :=
  (((elf.program_headers.filter fun ph =>
      decide (ph.type_ = PhType.Load)).map fun ph =>
        pages (ph.virtual_addr + ph.mem_size)).foldr max 0) * PAGE_SIZE

/-- make_vmo: asserts the header is LOAD, sizes the VMO as
pages(mem_size + page_offset) with page_offset = virtual_addr % PAGE_SIZE,
requires SegmentData::Undefined (else INVALID_ARGS), writes the file bytes at
page_offset. -/
def make_vmo (ph : ProgramHeader) : Outcome ZxError VMObjectPaged :=
  if ph.type_ = PhType.Load then
    let page_offset := ph.virtual_addr % PAGE_SIZE
    let vmo := VMObjectPaged.new (pages (ph.mem_size + page_offset))
    match ph.data with
    | SegmentData.Undefined data => vmo.write page_offset data
    | SegmentData.other => Outcome.err ZxError.INVALID_ARGS
  else Outcome.panic

/-- A mapping registered in the VMAR: vaddr offset, index of the mapped VMO in
the staged-VMO list (standing for the shared Arc), vmo offset, length, flags. -/
structure VmMapping where
  vaddr_offset : Nat
  vmo_index : Nat
  vmo_offset : Nat
  len : Nat
  mmu_flags : MMUFlags
deriving DecidableEq

/-- Modelled from the spec: VmAddressRegion::map_at (vmar.rs is not under src)
requires vaddr offset, vmo offset and length page-aligned, INVALID_ARGS
otherwise, and registers the mapping. The overlap and permission-ceiling
checks of the spec are not modelled; no claim in scope depends on them. -/
def VmAddressRegion.map_at (mappings : List VmMapping)
    (vaddr_offset vmo_index vmo_offset len : Nat) (flags : MMUFlags) :
    Outcome ZxError (List VmMapping) :=
  if page_aligned vaddr_offset && page_aligned vmo_offset && page_aligned len then
    Outcome.ok (mappings ++ [VmMapping.mk vaddr_offset vmo_index vmo_offset len flags])
  else Outcome.err ZxError.INVALID_ARGS

/-- The loop body of VmarExt::load_from_elf: walks the program headers, skips
non-LOAD, builds a VMO with make_vmo and maps it at
virtual_addr / PAGE_SIZE * PAGE_SIZE with the projected flags, at vmo offset 0
and the full VMO length, accumulating staged VMOs (in order) and mappings. -/
def loadSegments : List VmMapping → List VMObjectPaged → List ProgramHeader →
    Outcome ZxError (List VMObjectPaged × List VmMapping)
  | mappings, vmos, [] => Outcome.ok (vmos, mappings)
  | mappings, vmos, ph :: rest =>
    if ph.type_ = PhType.Load then
      match make_vmo ph with
      | Outcome.err e => Outcome.err e
      | Outcome.panic => Outcome.panic
      | Outcome.ok vmo =>
        match VmAddressRegion.map_at mappings (ph.virtual_addr / PAGE_SIZE * PAGE_SIZE)
            vmos.length 0 vmo.len ph.flags.to_mmu_flags with
        | Outcome.err e => Outcome.err e
        | Outcome.panic => Outcome.panic
        | Outcome.ok ms => loadSegments ms (vmos ++ [vmo]) rest
    else loadSegments mappings vmos rest

/-- VmarExt::load_from_elf: runs the staging loop; the final unwrap of
first_vmo panics when the image had no LOAD header. The head of the returned
VMO list is the first VMO (the function's return value in the source). -/
def VmAddressRegion.load_from_elf (elf : ElfFile) :
    Outcome ZxError (List VMObjectPaged × List VmMapping) :=
  match loadSegments [] [] elf.program_headers with
  | Outcome.ok (vmos, mappings) =>
    match vmos with
    | [] => Outcome.panic
    | _ => Outcome.ok (vmos, mappings)
  | Outcome.err e => Outcome.err e
  | Outcome.panic => Outcome.panic

/-! Initial-stack auxv and the run entry point. The abi module (linux-loader
src/abi.rs) is not under src; its AT_* keys and the fact that the auxv map is
written to the stack are modelled from the spec; the map construction itself
is in run (src/linux-loader/src/lib.rs lines 53-66). -/

/-- Modelled from the spec: auxv key AT_PHDR (standard ELF value 3). -/
def AT_PHDR : Nat := 3

/-- Modelled from the spec: auxv key AT_PHENT (standard ELF value 4). -/
def AT_PHENT : Nat := 4

/-- Modelled from the spec: auxv key AT_PHNUM (standard ELF value 5). -/
def AT_PHNUM : Nat := 5

/-- Modelled from the spec: auxv key AT_PAGESZ (standard ELF value 6). -/
def AT_PAGESZ : Nat := 6

/-- Modelled from the spec: auxv key AT_BASE (standard ELF value 7). -/
def AT_BASE : Nat := 7

/-- BTreeMap::insert on a key-sorted association list (replaces an equal key). -/
def btreeInsert (k v : Nat) : List (Nat × Nat) → List (Nat × Nat)
  | [] => [(k, v)]
  | (k2, v2) :: rest =>
    if k < k2 then (k, v) :: (k2, v2) :: rest
    else if k = k2 then (k, v) :: rest
    else (k2, v2) :: btreeInsert k v rest

/-- Lookup on a key-sorted association list. -/
def btreeLookup (k : Nat) : List (Nat × Nat) → Option Nat
  | [] => none
  | (k2, v2) :: rest => if k = k2 then some v2 else btreeLookup k rest

/-- The auxv map run builds: inserts, in source order, AT_BASE = base,
AT_PHDR = base + ph_offset, AT_PHENT = ph_entry_size, AT_PHNUM = ph_count,
AT_PAGESZ = PAGE_SIZE into an empty BTreeMap. -/
def mkAuxv (base ph_offset ph_entry_size ph_count : Nat) : List (Nat × Nat) :=
  btreeInsert AT_PAGESZ PAGE_SIZE
    (btreeInsert AT_PHNUM ph_count
      (btreeInsert AT_PHENT ph_entry_size
        (btreeInsert AT_PHDR (base + ph_offset)
          (btreeInsert AT_BASE base []))))

/-- Native byte encoding of a machine word, as usize::to_ne_bytes (8 bytes,
little-endian on all targets of this kernel). -/
def natToBytes8 (x : Nat) : List Nat :=
  (List.range 8).map fun i => x / 256 ^ i % 256

/-- Everything observable that run produces before starting the thread: the
size reserved in the parent VMAR, the chosen base, the staged VMO contents
(head patched with the syscall entry), the installed mappings, the relocation
stores, the auxv map, the ELF entry address, and the argv/envp vectors. -/
structure LoadedImage where
  reserved_size : Nat
  base : Nat
  vmos : List VMObjectPaged
  mappings : List VmMapping
  reloc_stores : List (Nat × Nat)
  auxv : List (Nat × Nat)
  entry : Nat
  args : List (List Nat)
  envs : List (List Nat)

/-- The run entry point (src/linux-loader/src/lib.rs lines 24-72), up to the
point the thread is started. The base address chosen by
vmar.create_child(None, size) and the trampoline address taken from the
syscall_entry function pointer are the two environment-chosen words and are
explicit parameters; every unwrap / expect on a failure is a panic. The
stack buffer allocation and ProcInitInfo::push_at byte layout (abi.rs, not
under src) are not replayed; the auxv map run passes to them is recorded. -/
def run (elf : ElfFile) (args envs : List (List Nat))
    (base syscall_entry_addr : Nat) : Outcome ZxError LoadedImage :=
  match elf.load_segment_size with
  | none => Outcome.panic
  | some size =>
    match elf.syscall_entry_symbol with
    | none => Outcome.panic
    | some syscall_entry_offset =>
      match VmAddressRegion.load_from_elf elf with
      | Outcome.err _ => Outcome.panic
      | Outcome.panic => Outcome.panic
      | Outcome.ok (vmos, mappings) =>
        match vmos with
        | [] => Outcome.panic
        | first :: restVmos =>
          match first.write syscall_entry_offset (natToBytes8 syscall_entry_addr) with
          | Outcome.err _ => Outcome.panic
          | Outcome.panic => Outcome.panic
          | Outcome.ok firstPatched =>
            match (elf.relocate base).2 with
            | Outcome.err _ => Outcome.panic
            | Outcome.panic => Outcome.panic
            | Outcome.ok _ =>
              Outcome.ok (LoadedImage.mk size base (firstPatched :: restVmos)
                mappings (elf.relocate base).1
                (mkAuxv base elf.ph_offset elf.ph_entry_size elf.ph_count)
                (base + elf.entry_point) args envs)

/-! bti_pin syscall validation: src/zircon-syscall/src/ddk.rs. -/

/-- Modelled from the spec: handle right DUPLICATE (rights bits live in
zircon-object object module, not under src; only distinctness of the bits is
used by the claims). -/
def Rights.DUPLICATE : Nat := 1

/-- Modelled from the spec: handle right TRANSFER. -/
def Rights.TRANSFER : Nat := 2

/-- Modelled from the spec: handle right READ. -/
def Rights.READ : Nat := 4

/-- Modelled from the spec: handle right WRITE. -/
def Rights.WRITE : Nat := 8

/-- Modelled from the spec: handle right EXECUTE. -/
def Rights.EXECUTE : Nat := 16

/-- Modelled from the spec: handle right MAP. -/
def Rights.MAP : Nat := 32

/-- Modelled from the spec: handle right INSPECT. -/
def Rights.INSPECT : Nat := 64

/-- Rights::contains for a flag mask: all bits of the mask are present. -/
def rightsContains (r f : Nat) : Bool := r &&& f == f

/-- BtiOptions::PERM_READ (1 << 0). -/
def BtiOptions.PERM_READ : Nat := 1

/-- BtiOptions::PERM_WRITE (1 << 1). -/
def BtiOptions.PERM_WRITE : Nat := 2

/-- BtiOptions::PERM_EXECUTE (1 << 2). -/
def BtiOptions.PERM_EXECUTE : Nat := 4

/-- BtiOptions::COMPRESS (1 << 3). -/
def BtiOptions.COMPRESS : Nat := 8

/-- BtiOptions::CONTIGUOUS (1 << 4). -/
def BtiOptions.CONTIGUOUS : Nat := 16

/-- BtiOptions::from_bits_truncate: keeps the five defined bits. -/
def from_bits_truncate (n : Nat) : Nat := n &&& 31

/-- BtiOptions::contains for a flag mask. -/
def optContains (o f : Nat) : Bool := o &&& f == f

/-- Modelled from the spec: IOMMU permission PERM_READ (dev module not under
src; only distinctness matters). -/
def IommuPerms.PERM_READ : Nat := 1

/-- Modelled from the spec: IOMMU permission PERM_WRITE. -/
def IommuPerms.PERM_WRITE : Nat := 2

/-- Modelled from the spec: IOMMU permission PERM_EXECUTE. -/
def IommuPerms.PERM_EXECUTE : Nat := 4

/-- The iommu_perms word sys_bti_pin accumulates across its three PERM
branches, as a function of the (truncated) options. -/
def iommuPermsOf (options : Nat) : Nat :=
  (if optContains options BtiOptions.PERM_READ then IommuPerms.PERM_READ else 0) |||
  (if optContains options BtiOptions.PERM_WRITE then IommuPerms.PERM_WRITE else 0) |||
  (if optContains options BtiOptions.PERM_EXECUTE then IommuPerms.PERM_EXECUTE else 0)

/-- Modelled from the spec: HandleTable get_with_rights — BAD_HANDLE when the
handle does not resolve, ACCESS_DENIED when the required rights are not all
present (handle-table code is not under src). The handle argument is
abstracted to the rights its table entry carries, if any. -/
def get_object_with_rights (entry : Option Nat) (required : Nat) :
    Outcome ZxError Unit :=
  match entry with
  | none => Outcome.err ZxError.BAD_HANDLE
  | some rights =>
    if rightsContains rights required then Outcome.ok ()
    else Outcome.err ZxError.ACCESS_DENIED

/-- The validated pin request sys_bti_pin hands to Bti::pin on success. -/
structure BtiPinRequest where
  iommu_perms : Nat
  compress_results : Bool
  contiguous : Bool
  offset : Nat
  size : Nat
deriving DecidableEq

/-- Syscall::sys_bti_pin (src/zircon-syscall/src/ddk.rs lines 68-129), up to
the Bti::pin call: the BTI handle is fetched with required right MAP; offset
and size must be page-aligned (INVALID_ARGS); the VMO handle is fetched with
its rights (BAD_HANDLE when absent) and must carry MAP (ACCESS_DENIED); the
truncated options then drive the three PERM branches (PERM_READ needs READ,
PERM_WRITE needs WRITE, PERM_EXECUTE deliberately needs READ — each
ACCESS_DENIED on failure); COMPRESS together with CONTIGUOUS is INVALID_ARGS;
CONTIGUOUS on a non-contiguous VMO is INVALID_ARGS; otherwise the call
reaches Bti::pin with the accumulated permissions. Handle arguments are
abstracted to their table entries: the BTI entry to its rights, the VMO entry
to its rights and its is_contiguous flag. -/
def sys_bti_pin (btiEntry : Option Nat) (options : Nat)
    (vmoEntry : Option (Nat × Bool)) (offset size : Nat) :
    Outcome ZxError BtiPinRequest :=
  match get_object_with_rights btiEntry Rights.MAP with
  | Outcome.err e => Outcome.err e
  | Outcome.panic => Outcome.panic
  | Outcome.ok _ =>
    if !page_aligned offset || !page_aligned size then
      Outcome.err ZxError.INVALID_ARGS
    else
      match vmoEntry with
      | none => Outcome.err ZxError.BAD_HANDLE
      | some (rights, contiguous) =>
        if !rightsContains rights Rights.MAP then Outcome.err ZxError.ACCESS_DENIED
        else
          let opts := from_bits_truncate options
          if optContains opts BtiOptions.PERM_READ &&
              !rightsContains rights Rights.READ then
            Outcome.err ZxError.ACCESS_DENIED
          else if optContains opts BtiOptions.PERM_WRITE &&
              !rightsContains rights Rights.WRITE then
            Outcome.err ZxError.ACCESS_DENIED
          else if optContains opts BtiOptions.PERM_EXECUTE &&
              !rightsContains rights Rights.READ then
            Outcome.err ZxError.ACCESS_DENIED
          else if optContains opts BtiOptions.COMPRESS &&
              optContains opts BtiOptions.CONTIGUOUS then
            Outcome.err ZxError.INVALID_ARGS
          else if optContains opts BtiOptions.CONTIGUOUS && !contiguous then
            Outcome.err ZxError.INVALID_ARGS
          else
            Outcome.ok (BtiPinRequest.mk (iommuPermsOf opts)
              (optContains opts BtiOptions.COMPRESS)
              (optContains opts BtiOptions.CONTIGUOUS) offset size)

/-- The conjunction of the three PERM-branch checks of sys_bti_pin, as a
predicate on the truncated options and the VMO rights (used to state when the
branch sequence falls through without ACCESS_DENIED). -/
def permChecksPass (opts rights : Nat) : Bool :=
  (!optContains opts BtiOptions.PERM_READ || rightsContains rights Rights.READ) &&
  (!optContains opts BtiOptions.PERM_WRITE || rightsContains rights Rights.WRITE) &&
  (!optContains opts BtiOptions.PERM_EXECUTE || rightsContains rights Rights.READ)

/-! Theorems. -/

/-- Claim C1 (amended): for every physical VMO, a read or write with
offset + |buf| equal to the VMO length succeeds, and with offset + |buf|
greater than the length it fails by the bounds-assert panic — not by
returning INVALID_ARGS — and the in-bounds invariant offset + len <= length
holds for every read that completes. -/
theorem physical_rw_bounds (v : VMObjectPhysical) (pmem : Nat → Nat)
    (offset n : Nat) (buf : List Nat) (hbuf : buf.length = n) :
    (offset + n = v.len →
      v.read pmem offset n = Outcome.ok (pmem_read pmem (v.paddr + offset) n) ∧
      v.write pmem offset buf = Outcome.ok (pmem_write pmem (v.paddr + offset) buf)) ∧
    (v.len < offset + n →
      v.read pmem offset n = Outcome.panic ∧
      v.write pmem offset buf = Outcome.panic) ∧
    (∀ bs, v.read pmem offset n = Outcome.ok bs → offset + n ≤ v.len) := by
  subst hbuf
  refine ⟨fun h => ?_, fun h => ?_, fun bs hbs => ?_⟩
  · have hle : offset + buf.length ≤ v.len := le_of_eq h
    exact ⟨by simp [VMObjectPhysical.read, hle],
           by simp [VMObjectPhysical.write, hle]⟩
  · have hgt : ¬ offset + buf.length ≤ v.len := by omega
    exact ⟨by simp [VMObjectPhysical.read, hgt],
           by simp [VMObjectPhysical.write, hgt]⟩
  · by_cases hle : offset + buf.length ≤ v.len
    · exact hle
    · simp [VMObjectPhysical.read, hle] at hbs

/-- Claim C1 witness: the boundary case offset + |buf| == len succeeds on a
concrete one-page physical VMO. -/
theorem physical_rw_bounds_witness :
    (VMObjectPhysical.mk 4096 1).read (fun _ => 0) 0 4096 =
      Outcome.ok (pmem_read (fun _ => 0) (4096 + 0) 4096) ∧
    (VMObjectPhysical.mk 4096 1).write (fun _ => 0) 0 (List.replicate 4096 7) =
      Outcome.ok (pmem_write (fun _ => 0) (4096 + 0) (List.replicate 4096 7)) :=
  (physical_rw_bounds (VMObjectPhysical.mk 4096 1) (fun _ => 0) 0 4096
    (List.replicate 4096 7) (List.length_replicate 4096 7)).1 (by decide)

/-- Claim C1 counterexample: on a 1-page physical VMO a 4097-byte read at
offset 0 panics on the bounds assert; it does not return INVALID_ARGS, so the
out-of-bounds branch of the claim is false as stated. -/
theorem physical_read_oob_not_invalid_args :
    (VMObjectPhysical.mk 4096 1).read (fun _ => 0) 0 4097 = Outcome.panic ∧
    (VMObjectPhysical.mk 4096 1).read (fun _ => 0) 0 4097 ≠
      Outcome.err ZxError.INVALID_ARGS := by
  decide

/-- Claim C2: on the physical VMO produced by new_physical (which sets
resizable to true, so set_len reaches the inner object), set_len, commit,
decommit and create_child all panic via unimplemented!() — none of them
returns the NOT_SUPPORTED error the spec describes, and none succeeds. -/
theorem physical_lifecycle_ops_panic :
    VmObject.new_physical 4096 2 =
      Outcome.ok (VmObject.mk true (VMObjectPhysical.mk 4096 2)) ∧
    (VmObject.mk true (VMObjectPhysical.mk 4096 2)).set_len 0 = Outcome.panic ∧
    (VmObject.mk true (VMObjectPhysical.mk 4096 2)).set_len 0 ≠
      Outcome.err ZxError.NOT_SUPPORTED ∧
    (VmObject.mk true (VMObjectPhysical.mk 4096 2)).commit 0 4096 = Outcome.panic ∧
    (VmObject.mk true (VMObjectPhysical.mk 4096 2)).decommit 0 4096 = Outcome.panic ∧
    (VmObject.mk true (VMObjectPhysical.mk 4096 2)).create_child false 0 4096 =
      Outcome.panic := by
  decide

/-- Claim C6: the projected MMU flags contain READ exactly when the segment
flag word has the read bit, WRITE exactly for the write bit and EXECUTE
exactly for the execute bit; in particular no implicit READ is added for a
write-only or execute-only segment. -/
theorem to_mmu_flags_projection (f : Flags) :
    (f.to_mmu_flags.contains MMUFlags.READ = f.is_read) ∧
    (f.to_mmu_flags.contains MMUFlags.WRITE = f.is_write) ∧
    (f.to_mmu_flags.contains MMUFlags.EXECUTE = f.is_execute) := by
  cases hr : f.is_read <;> cases hw : f.is_write <;> cases hx : f.is_execute <;>
    simp [Flags.to_mmu_flags, MMUFlags.contains, MMUFlags.insert, MMUFlags.empty,
      MMUFlags.READ, MMUFlags.WRITE, MMUFlags.EXECUTE, hr, hw, hx]

/-- Claim C4: processing a .rela.dyn entry: a RELATIVE (8) entry stores
base + r_addend at base + r_offset and processing continues; a GOT (6) or
PLT (7) entry looks up dynsym at the symbol index and, when shndx == 0, aborts
the load (a panic with the symbol name as diagnostic when the name resolves,
the name error otherwise — never a normal completion), and otherwise stores
base + sym.value + r_addend at base + r_offset and continues; any other
relocation type is a hard error (unimplemented!() panic). On an image whose
.rela.dyn is a Rela64 section and whose .dynsym is a symbol table, relocate
is exactly this loop. -/
theorem relocate_entry_semantics (dynsym : List DynEntry64) (base : Nat)
    (e : RelaEntry) (rest : List RelaEntry) :
    (e.rtype = 8 →
      relocEntries dynsym base (e :: rest) =
        ((base + e.offset, base + e.addend) :: (relocEntries dynsym base rest).1,
         (relocEntries dynsym base rest).2)) ∧
    (∀ d, (e.rtype = 6 ∨ e.rtype = 7) → dynsym.get? e.symIdx = some d →
      ((d.shndx = 0 →
         (relocEntries dynsym base (e :: rest)).2 ≠ Outcome.ok () ∧
         (d.name_ok = true →
           relocEntries dynsym base (e :: rest) = ([], Outcome.panic))) ∧
       (d.shndx ≠ 0 →
         relocEntries dynsym base (e :: rest) =
           ((base + e.offset, base + d.value + e.addend) ::
              (relocEntries dynsym base rest).1,
            (relocEntries dynsym base rest).2)))) ∧
    (e.rtype ≠ 6 → e.rtype ≠ 7 → e.rtype ≠ 8 →
      relocEntries dynsym base (e :: rest) = ([], Outcome.panic)) ∧
    (∀ (elf : ElfFile) (entries : List RelaEntry) (ds : List DynEntry64),
      elf.rela_dyn = some (RelaSection.rela64 entries) →
      elf.dynsym_sec = some (DynSection.dynSymbolTable64 ds) →
      elf.relocate base = relocEntries ds base entries) := by
  refine ⟨fun h8 => ?_, fun d h67 hidx => ⟨fun hsh => ⟨?_, fun hname => ?_⟩,
      fun hsh => ?_⟩, fun h6 h7 h8 => ?_, fun elf entries ds hra hds => ?_⟩
  · have hne : ¬ (e.rtype = 6 ∨ e.rtype = 7) := by omega
    simp [relocEntries, hne, h8]
  · simp only [relocEntries, if_pos h67, hidx]
    cases hname : d.name_ok <;> simp [hsh, hname]
  · simp only [relocEntries, if_pos h67, hidx]
    simp [hsh, hname]
  · simp only [relocEntries, if_pos h67, hidx]
    simp [hsh]
  · have hne : ¬ (e.rtype = 6 ∨ e.rtype = 7) := by omega
    simp [relocEntries, hne, h8]
  · simp [ElfFile.relocate, ElfFile.dynsym, hra, hds]

/-- Claim C4 witness: a concrete RELATIVE entry at offset 16 with addend 5 on
base 100 performs exactly the store (116, 105) and completes. -/
theorem relocate_entry_semantics_witness :
    relocEntries [] 100 (RelaEntry.mk 8 16 0 5 :: []) =
      ((100 + 16, 100 + 5) :: (relocEntries [] 100 []).1,
       (relocEntries [] 100 []).2) :=
  (relocate_entry_semantics [] 100 (RelaEntry.mk 8 16 0 5) []).1 rfl

/-- Iterator max of a nonempty list is the fold of max over it. -/
lemma maxNatList_eq_foldr (l : List Nat) (h : l ≠ []) :
    maxNatList l = some (l.foldr max 0) := by
  induction l with
  | nil => exact absurd rfl h
  | cons x xs ih =>
    by_cases hxs : xs = []
    · subst hxs; simp [maxNatList]
    · simp [maxNatList, ih hxs]

/-- A minimal concrete LOAD header used by witnesses: 16 bytes of memory at
virtual address 0, file bytes [1, 2, 3], rwx flags. -/
def samplePh : ProgramHeader :=
  ProgramHeader.mk PhType.Load 0 16 (Flags.mk 7) (SegmentData.Undefined [1, 2, 3])

/-- A minimal concrete ELF image used by witnesses: one LOAD segment of
16 bytes at virtual address 0 with file bytes [1, 2, 3] and rwx flags, empty
relocation and dynamic-symbol sections, and a syscall-entry symbol at 8. -/
def sampleElf : ElfFile where
  program_headers := [samplePh]
  entry_point := 0
  ph_offset := 64
  ph_entry_size := 56
  ph_count := 1
  rela_dyn := some (RelaSection.rela64 [])
  dynsym_sec := some (DynSection.dynSymbolTable64 [])
  syscall_entry_symbol := some 8

/-- Claim C5: for an image with at least one LOAD header, load_segment_size is
the maximum over the LOAD headers of pages(virtual_addr + mem_size), times
PAGE_SIZE, and that value is exactly the size run passes to the parent VMAR
when reserving the child VMAR (the reserved_size of every successful run). -/
theorem load_segment_size_correct (elf : ElfFile)
    (h : elf.program_headers.filter (fun ph => decide (ph.type_ = PhType.Load)) ≠ []) :
    elf.load_segment_size = some (load_segment_size_spec elf) ∧
    (∀ args envs base sa res, run elf args envs base sa = Outcome.ok res →
      res.reserved_size = load_segment_size_spec elf) := by
  have hmap : (elf.program_headers.filter fun ph =>
      decide (ph.type_ = PhType.Load)).map
        (fun ph => pages (ph.virtual_addr + ph.mem_size)) ≠ [] := by
    simpa using h
  have h1 : elf.load_segment_size = some (load_segment_size_spec elf) := by
    rw [ElfFile.load_segment_size, maxNatList_eq_foldr _ hmap]
    rfl
  refine ⟨h1, fun args envs base sa res hrun => ?_⟩
  unfold run at hrun
  rw [h1] at hrun
  dsimp only at hrun
  cases hsym : elf.syscall_entry_symbol with
  | none => rw [hsym] at hrun; cases hrun
  | some off =>
    rw [hsym] at hrun
    dsimp only at hrun
    cases hload : VmAddressRegion.load_from_elf elf with
    | err e => rw [hload] at hrun; cases hrun
    | panic => rw [hload] at hrun; cases hrun
    | ok p =>
      rw [hload] at hrun
      obtain ⟨vmos, mappings⟩ := p
      dsimp only at hrun
      cases vmos with
      | nil => cases hrun
      | cons first restVmos =>
        dsimp only at hrun
        cases hw : first.write off (natToBytes8 sa) with
        | err e => rw [hw] at hrun; cases hrun
        | panic => rw [hw] at hrun; cases hrun
        | ok firstP =>
          rw [hw] at hrun
          dsimp only at hrun
          cases hrel : (elf.relocate base).2 with
          | err e => rw [hrel] at hrun; cases hrun
          | panic => rw [hrel] at hrun; cases hrun
          | ok u =>
            rw [hrel] at hrun
            dsimp only at hrun
            cases hrun
            rfl

/-- Claim C5 witness: on the sample image (one 16-byte LOAD segment) the
computed size is one page and matches the spec formula. -/
theorem load_segment_size_correct_witness :
    sampleElf.load_segment_size = some (load_segment_size_spec sampleElf) :=
  (load_segment_size_correct sampleElf (by decide)).1

/-- Helper: every successful run carries exactly the auxv map built from the
chosen base and the ELF header fields. -/
lemma run_ok_auxv (elf : ElfFile) (args envs : List (List Nat)) (base sa : Nat)
    (h : (run elf args envs base sa).isOk = true) :
    (run elf args envs base sa).map LoadedImage.auxv =
      Outcome.ok (mkAuxv base elf.ph_offset elf.ph_entry_size elf.ph_count) := by
  unfold run at h ⊢
  cases hsz : elf.load_segment_size with
  | none => rw [hsz] at h; simp [Outcome.isOk] at h
  | some size =>
    rw [hsz] at h
    dsimp only at h ⊢
    cases hsym : elf.syscall_entry_symbol with
    | none => rw [hsym] at h; simp [Outcome.isOk] at h
    | some off =>
      rw [hsym] at h
      dsimp only at h ⊢
      cases hload : VmAddressRegion.load_from_elf elf with
      | err e => rw [hload] at h; simp [Outcome.isOk] at h
      | panic => rw [hload] at h; simp [Outcome.isOk] at h
      | ok p =>
        rw [hload] at h
        obtain ⟨vmos, mappings⟩ := p
        dsimp only at h ⊢
        cases vmos with
        | nil => simp [Outcome.isOk] at h
        | cons first restVmos =>
          dsimp only at h ⊢
          cases hw : first.write off (natToBytes8 sa) with
          | err e => rw [hw] at h; simp [Outcome.isOk] at h
          | panic => rw [hw] at h; simp [Outcome.isOk] at h
          | ok firstP =>
            rw [hw] at h
            dsimp only at h ⊢
            cases hrel : (elf.relocate base).2 with
            | err e => rw [hrel] at h; simp [Outcome.isOk] at h
            | panic => rw [hrel] at h; simp [Outcome.isOk] at h
            | ok u => rfl

/-- Claim C7: every successful run builds an auxv containing all five keys:
AT_PAGESZ maps to PAGE_SIZE, AT_BASE to the chosen load base, AT_PHDR to
base + the program-header offset, AT_PHENT to the program-header entry size,
AT_PHNUM to the program-header count. -/
theorem run_auxv_complete (elf : ElfFile) (args envs : List (List Nat))
    (base sa : Nat) (h : (run elf args envs base sa).isOk = true) :
    (run elf args envs base sa).map LoadedImage.auxv =
      Outcome.ok (mkAuxv base elf.ph_offset elf.ph_entry_size elf.ph_count) ∧
    btreeLookup AT_BASE
      (mkAuxv base elf.ph_offset elf.ph_entry_size elf.ph_count) = some base ∧
    btreeLookup AT_PHDR
      (mkAuxv base elf.ph_offset elf.ph_entry_size elf.ph_count) =
      some (base + elf.ph_offset) ∧
    btreeLookup AT_PHENT
      (mkAuxv base elf.ph_offset elf.ph_entry_size elf.ph_count) =
      some elf.ph_entry_size ∧
    btreeLookup AT_PHNUM
      (mkAuxv base elf.ph_offset elf.ph_entry_size elf.ph_count) =
      some elf.ph_count ∧
    btreeLookup AT_PAGESZ
      (mkAuxv base elf.ph_offset elf.ph_entry_size elf.ph_count) =
      some PAGE_SIZE :=
  ⟨run_ok_auxv elf args envs base sa h, rfl, rfl, rfl, rfl, rfl⟩

/-- Claim C7 witness: on the sample image the successful run's auxv is the
five-key map. -/
theorem run_auxv_complete_witness :
    (run sampleElf [] [] 0 0).map LoadedImage.auxv =
      Outcome.ok (mkAuxv 0 sampleElf.ph_offset sampleElf.ph_entry_size
        sampleElf.ph_count) :=
  (run_auxv_complete sampleElf [] [] 0 0 (by decide)).1

/-- Claim C9: the loader is deterministic — two runs on the same image bytes,
the same argument and environment vectors, the same chosen base and the same
trampoline address produce identical staged VMO contents, identical installed
mappings and identical relocation stores. -/
theorem elf_load_deterministic (d1 d2 : ElfFile) (a1 a2 e1 e2 : List (List Nat))
    (b1 b2 s1 s2 : Nat) (hd : d1 = d2) (ha : a1 = a2) (he : e1 = e2)
    (hb : b1 = b2) (hs : s1 = s2) :
    (run d1 a1 e1 b1 s1).map (fun r => (r.vmos, r.mappings, r.reloc_stores)) =
    (run d2 a2 e2 b2 s2).map (fun r => (r.vmos, r.mappings, r.reloc_stores)) := by
  subst hd; subst ha; subst he; subst hb; subst hs; rfl

/-- Claim C9 witness: two runs on the sample image with base 0 agree. -/
theorem elf_load_deterministic_witness :
    (run sampleElf [] [] 0 0).map (fun r => (r.vmos, r.mappings, r.reloc_stores)) =
    (run sampleElf [] [] 0 0).map (fun r => (r.vmos, r.mappings, r.reloc_stores)) :=
  elf_load_deterministic sampleElf sampleElf [] [] [] [] 0 0 0 0 rfl rfl rfl rfl rfl

/-- Helper: the element at the length of the left part of an append. -/
lemma get_at_append_length (l1 l2 : List α) (x : α) :
    (l1 ++ x :: l2).get? l1.length = some x := by
  induction l1 with
  | nil => rfl
  | cons a t ih => simpa using ih

/-- Helper: a successful map_at appends exactly the registered mapping. -/
lemma map_at_ok (ms : List VmMapping) (vo vi voff len : Nat) (fl : MMUFlags)
    (ms2 : List VmMapping)
    (h : VmAddressRegion.map_at ms vo vi voff len fl = Outcome.ok ms2) :
    ms2 = ms ++ [VmMapping.mk vo vi voff len fl] := by
  unfold VmAddressRegion.map_at at h
  by_cases hc : (page_aligned vo && page_aligned voff && page_aligned len) = true
  · rw [if_pos hc] at h; cases h; rfl
  · rw [if_neg hc] at h; cases h

/-- Helper: a successful make_vmo on a LOAD header with defined file bytes
yields a VMO sized pages(mem_size + page_offset) whose bytes at page_offset
are the file bytes. -/
lemma make_vmo_ok (ph : ProgramHeader) (d : List Nat) (vmo : VMObjectPaged)
    (hdata : ph.data = SegmentData.Undefined d)
    (h : make_vmo ph = Outcome.ok vmo) :
    vmo.pages = pages (ph.mem_size + ph.virtual_addr % PAGE_SIZE) ∧
    ∀ j, j < d.length →
      vmo.data (ph.virtual_addr % PAGE_SIZE + j) = d.getD j 0 := by
  unfold make_vmo at h
  by_cases hl : ph.type_ = PhType.Load
  · rw [if_pos hl] at h
    dsimp only at h
    rw [hdata] at h
    dsimp only at h
    unfold VMObjectPaged.write at h
    by_cases hb : ph.virtual_addr % PAGE_SIZE + d.length ≤
        (VMObjectPaged.new (pages (ph.mem_size + ph.virtual_addr % PAGE_SIZE))).len
    · rw [if_pos hb] at h
      cases h
      refine ⟨rfl, fun j hj => ?_⟩
      show storeBytes (fun _ => 0) (ph.virtual_addr % PAGE_SIZE) d
        (ph.virtual_addr % PAGE_SIZE + j) = d.getD j 0
      unfold storeBytes
      rw [if_pos ⟨Nat.le_add_right _ _, by omega⟩]
      have hsub : ph.virtual_addr % PAGE_SIZE + j - ph.virtual_addr % PAGE_SIZE = j := by
        omega
      rw [hsub]
    · rw [if_neg hb] at h; cases h
  · rw [if_neg hl] at h; cases h

/-- Helper: the staging loop only appends staged VMOs and keeps every mapping
already registered. -/
lemma loadSegments_extends (phs : List ProgramHeader) :
    ∀ ms vs vmos maps, loadSegments ms vs phs = Outcome.ok (vmos, maps) →
    (∃ tl, vmos = vs ++ tl) ∧ ∀ m ∈ ms, m ∈ maps := by
  induction phs with
  | nil =>
    intro ms vs vmos maps h
    cases h
    exact ⟨⟨[], by simp⟩, fun m hm => hm⟩
  | cons ph0 rest ih =>
    intro ms vs vmos maps h
    simp only [loadSegments] at h
    by_cases hl0 : ph0.type_ = PhType.Load
    · rw [if_pos hl0] at h
      cases hmk : make_vmo ph0 with
      | err e => rw [hmk] at h; cases h
      | panic => rw [hmk] at h; cases h
      | ok vmo =>
        rw [hmk] at h
        dsimp only at h
        cases hmap : VmAddressRegion.map_at ms
            (ph0.virtual_addr / PAGE_SIZE * PAGE_SIZE) vs.length 0 vmo.len
            ph0.flags.to_mmu_flags with
        | err e => rw [hmap] at h; cases h
        | panic => rw [hmap] at h; cases h
        | ok ms2 =>
          rw [hmap] at h
          dsimp only at h
          obtain ⟨⟨tl, htl⟩, hsub⟩ := ih _ _ _ _ h
          refine ⟨⟨vmo :: tl, by simp [htl]⟩, fun m hm => ?_⟩
          apply hsub
          rw [map_at_ok _ _ _ _ _ _ _ hmap]
          exact List.mem_append_left _ hm
    · rw [if_neg hl0] at h
      exact ih _ _ _ _ h


/-- Helper: every LOAD header processed by a successful staging loop has a
staged VMO (by index) and a registered mapping at the page-rounded virtual
address with the projected flags. -/
lemma loadSegments_stages (phs : List ProgramHeader) :
    ∀ ms vs vmos maps, loadSegments ms vs phs = Outcome.ok (vmos, maps) →
    ∀ ph ∈ phs, ph.type_ = PhType.Load →
    ∃ i vmo, vmos.get? i = some vmo ∧ make_vmo ph = Outcome.ok vmo ∧
      VmMapping.mk (ph.virtual_addr / PAGE_SIZE * PAGE_SIZE) i 0 vmo.len
        ph.flags.to_mmu_flags ∈ maps := by
  induction phs with
  | nil =>
    intro ms vs vmos maps h ph hph
    cases hph
  | cons ph0 rest ih =>
    intro ms vs vmos maps h ph hph hl
    simp only [loadSegments] at h
    rcases List.mem_cons.mp hph with heq | hmem
    · subst heq
      rw [if_pos hl] at h
      cases hmk : make_vmo ph with
      | err e => rw [hmk] at h; cases h
      | panic => rw [hmk] at h; cases h
      | ok vmo =>
        rw [hmk] at h
        dsimp only at h
        cases hmap : VmAddressRegion.map_at ms
            (ph.virtual_addr / PAGE_SIZE * PAGE_SIZE) vs.length 0 vmo.len
            ph.flags.to_mmu_flags with
        | err e => rw [hmap] at h; cases h
        | panic => rw [hmap] at h; cases h
        | ok ms2 =>
          rw [hmap] at h
          dsimp only at h
          obtain ⟨⟨tl, htl⟩, hsub⟩ := loadSegments_extends rest _ _ _ _ h
          refine ⟨vs.length, vmo, ?_, rfl, ?_⟩
          · have hflat : (vs ++ [vmo]) ++ tl = vs ++ vmo :: tl := by simp
            rw [htl, hflat, get_at_append_length]
          · apply hsub
            rw [map_at_ok _ _ _ _ _ _ _ hmap]
            exact List.mem_append_right _ (by simp)
    · by_cases hl0 : ph0.type_ = PhType.Load
      · rw [if_pos hl0] at h
        cases hmk : make_vmo ph0 with
        | err e => rw [hmk] at h; cases h
        | panic => rw [hmk] at h; cases h
        | ok vmo =>
          rw [hmk] at h
          dsimp only at h
          cases hmap : VmAddressRegion.map_at ms
              (ph0.virtual_addr / PAGE_SIZE * PAGE_SIZE) vs.length 0 vmo.len
              ph0.flags.to_mmu_flags with
          | err e => rw [hmap] at h; cases h
          | panic => rw [hmap] at h; cases h
          | ok ms2 =>
            rw [hmap] at h
            dsimp only at h
            exact ih _ _ _ _ h ph hmem hl
      · rw [if_neg hl0] at h
        exact ih _ _ _ _ h ph hmem hl

/-- Claim C3: in every successful load_from_elf, each LOAD program header is
staged into a VMO of pages(mem_size + page_offset) pages where page_offset is
virtual_addr % PAGE_SIZE, the segment file bytes sit in that VMO starting at
page_offset, and a mapping of the whole VMO is registered in the reserved
VMAR at offset virtual_addr / PAGE_SIZE * PAGE_SIZE with the MMU flags
projected from the segment flags. -/
theorem load_from_elf_stages_segments (elf : ElfFile)
    (h : (VmAddressRegion.load_from_elf elf).isOk = true)
    (ph : ProgramHeader) (hph : ph ∈ elf.program_headers)
    (hload : ph.type_ = PhType.Load) (d : List Nat)
    (hdata : ph.data = SegmentData.Undefined d) :
    ∃ vmos maps, VmAddressRegion.load_from_elf elf = Outcome.ok (vmos, maps) ∧
      ∃ i vmo, vmos.get? i = some vmo ∧
        vmo.pages = pages (ph.mem_size + ph.virtual_addr % PAGE_SIZE) ∧
        (∀ j, j < d.length →
          vmo.data (ph.virtual_addr % PAGE_SIZE + j) = d.getD j 0) ∧
        VmMapping.mk (ph.virtual_addr / PAGE_SIZE * PAGE_SIZE) i 0 vmo.len
          ph.flags.to_mmu_flags ∈ maps := by
  unfold VmAddressRegion.load_from_elf at h ⊢
  cases hls : loadSegments [] [] elf.program_headers with
  | err e => rw [hls] at h; simp [Outcome.isOk] at h
  | panic => rw [hls] at h; simp [Outcome.isOk] at h
  | ok p =>
    obtain ⟨vmos, maps⟩ := p
    cases vmos with
    | nil => rw [hls] at h; simp [Outcome.isOk] at h
    | cons v0 vrest =>
      refine ⟨v0 :: vrest, maps, rfl, ?_⟩
      obtain ⟨i, vmo, hget, hmk, hmem⟩ :=
        loadSegments_stages elf.program_headers [] [] _ _ hls ph hph hload
      obtain ⟨hpages, hbytes⟩ := make_vmo_ok ph d vmo hdata hmk
      exact ⟨i, vmo, hget, hpages, hbytes, hmem⟩

/-- Claim C3 witness: the sample LOAD segment is staged into a one-page VMO
holding its three file bytes and mapped at offset 0 with rwx flags. -/
theorem load_from_elf_stages_segments_witness :
    ∃ vmos maps,
      VmAddressRegion.load_from_elf sampleElf = Outcome.ok (vmos, maps) ∧
      ∃ i vmo, vmos.get? i = some vmo ∧
        vmo.pages = pages (samplePh.mem_size + samplePh.virtual_addr % PAGE_SIZE) ∧
        (∀ j, j < ([1, 2, 3] : List Nat).length →
          vmo.data (samplePh.virtual_addr % PAGE_SIZE + j) =
            ([1, 2, 3] : List Nat).getD j 0) ∧
        VmMapping.mk (samplePh.virtual_addr / PAGE_SIZE * PAGE_SIZE) i 0 vmo.len
          samplePh.flags.to_mmu_flags ∈ maps :=
  load_from_elf_stages_segments sampleElf (by decide) samplePh (by decide) rfl
    [1, 2, 3] rfl

/-- Helper: when the three PERM checks pass, each of the three ACCESS_DENIED
branch guards of sys_bti_pin is false. -/
lemma permChecksPass_branches (opts r : Nat) (h : permChecksPass opts r = true) :
    (optContains opts BtiOptions.PERM_READ && !rightsContains r Rights.READ) = false ∧
    (optContains opts BtiOptions.PERM_WRITE && !rightsContains r Rights.WRITE) = false ∧
    (optContains opts BtiOptions.PERM_EXECUTE && !rightsContains r Rights.READ) = false := by
  unfold permChecksPass at h
  cases hR : optContains opts BtiOptions.PERM_READ <;>
  cases hW : optContains opts BtiOptions.PERM_WRITE <;>
  cases hX : optContains opts BtiOptions.PERM_EXECUTE <;>
  simp_all

/-- Claim C8: sys_bti_pin validation — on handles that resolve with the
required rights, options holding both COMPRESS and CONTIGUOUS fail
INVALID_ARGS (and with both options no call whatsoever reaches the pin);
a non-page-aligned offset or size fails INVALID_ARGS; CONTIGUOUS on a
non-contiguous VMO fails INVALID_ARGS; and the scenario call with options
CONTIGUOUS with PERM_READ, a contiguous VMO and handle rights MAP and READ
passes every validation check and reaches Bti::pin with read permission. -/
theorem sys_bti_pin_validation :
    (∀ btiR vmoR contig offset size options,
      rightsContains btiR Rights.MAP = true →
      page_aligned offset = true → page_aligned size = true →
      rightsContains vmoR Rights.MAP = true →
      permChecksPass (from_bits_truncate options) vmoR = true →
      optContains (from_bits_truncate options) BtiOptions.COMPRESS = true →
      optContains (from_bits_truncate options) BtiOptions.CONTIGUOUS = true →
      sys_bti_pin (some btiR) options (some (vmoR, contig)) offset size =
        Outcome.err ZxError.INVALID_ARGS) ∧
    (∀ btiE vmoE offset size options req,
      optContains (from_bits_truncate options) BtiOptions.COMPRESS = true →
      optContains (from_bits_truncate options) BtiOptions.CONTIGUOUS = true →
      sys_bti_pin btiE options vmoE offset size ≠ Outcome.ok req) ∧
    (∀ btiR vmoE offset size options,
      rightsContains btiR Rights.MAP = true →
      (page_aligned offset = false ∨ page_aligned size = false) →
      sys_bti_pin (some btiR) options vmoE offset size =
        Outcome.err ZxError.INVALID_ARGS) ∧
    (∀ btiR vmoR offset size options,
      rightsContains btiR Rights.MAP = true →
      page_aligned offset = true → page_aligned size = true →
      rightsContains vmoR Rights.MAP = true →
      permChecksPass (from_bits_truncate options) vmoR = true →
      optContains (from_bits_truncate options) BtiOptions.COMPRESS = false →
      optContains (from_bits_truncate options) BtiOptions.CONTIGUOUS = true →
      sys_bti_pin (some btiR) options (some (vmoR, false)) offset size =
        Outcome.err ZxError.INVALID_ARGS) ∧
    (∀ btiR offset size,
      rightsContains btiR Rights.MAP = true →
      page_aligned offset = true → page_aligned size = true →
      sys_bti_pin (some btiR) (BtiOptions.CONTIGUOUS ||| BtiOptions.PERM_READ)
        (some (Rights.MAP ||| Rights.READ, true)) offset size =
        Outcome.ok (BtiPinRequest.mk IommuPerms.PERM_READ false true offset size)) := by
  refine ⟨?_, ?_, ?_, ?_, ?_⟩
  · intro btiR vmoR contig offset size options hbti hoff hsz hmap hperm hcomp hcontig
    obtain ⟨h1, h2, h3⟩ := permChecksPass_branches _ _ hperm
    simp [sys_bti_pin, get_object_with_rights, hbti, hoff, hsz, hmap, h1, h2, h3,
      hcomp, hcontig]
  · intro btiE vmoE offset size options req hcomp hcontig h
    unfold sys_bti_pin get_object_with_rights at h
    rcases btiE with _ | btiR
    · cases h
    · dsimp only at h
      by_cases hb : rightsContains btiR Rights.MAP = true
      · rw [if_pos hb] at h
        dsimp only at h
        by_cases hal : (!page_aligned offset || !page_aligned size) = true
        · rw [if_pos hal] at h; cases h
        · rw [if_neg hal] at h
          rcases vmoE with _ | ⟨vmoR, contig⟩
          · cases h
          · dsimp only at h
            by_cases hm : (!rightsContains vmoR Rights.MAP) = true
            · rw [if_pos hm] at h; cases h
            · rw [if_neg hm] at h
              by_cases h1 : (optContains (from_bits_truncate options)
                  BtiOptions.PERM_READ && !rightsContains vmoR Rights.READ) = true
              · rw [if_pos h1] at h; cases h
              · rw [if_neg h1] at h
                by_cases h2 : (optContains (from_bits_truncate options)
                    BtiOptions.PERM_WRITE && !rightsContains vmoR Rights.WRITE) = true
                · rw [if_pos h2] at h; cases h
                · rw [if_neg h2] at h
                  by_cases h3 : (optContains (from_bits_truncate options)
                      BtiOptions.PERM_EXECUTE && !rightsContains vmoR Rights.READ) = true
                  · rw [if_pos h3] at h; cases h
                  · rw [if_neg h3] at h
                    rw [hcomp, hcontig] at h
                    simp at h
      · rw [if_neg hb] at h
        cases h
  · intro btiR vmoE offset size options hbti halign
    rcases halign with h | h <;>
      simp [sys_bti_pin, get_object_with_rights, hbti, h]
  · intro btiR vmoR offset size options hbti hoff hsz hmap hperm hcomp hcontig
    obtain ⟨h1, h2, h3⟩ := permChecksPass_branches _ _ hperm
    simp [sys_bti_pin, get_object_with_rights, hbti, hoff, hsz, hmap, h1, h2, h3,
      hcomp, hcontig]
  · intro btiR offset size hbti hoff hsz
    unfold sys_bti_pin get_object_with_rights
    dsimp only
    rw [hbti, hoff, hsz]
    rfl

/-- Claim C8 witness: the scenario call on a contiguous 4-page range with
rights MAP and READ passes validation and reaches the pin. -/
theorem sys_bti_pin_validation_witness :
    sys_bti_pin (some Rights.MAP) (BtiOptions.CONTIGUOUS ||| BtiOptions.PERM_READ)
      (some (Rights.MAP ||| Rights.READ, true)) 0 (4 * PAGE_SIZE) =
      Outcome.ok (BtiPinRequest.mk IommuPerms.PERM_READ false true 0 (4 * PAGE_SIZE)) :=
  sys_bti_pin_validation.2.2.2.2 Rights.MAP 0 (4 * PAGE_SIZE)
    (by decide) (by decide) (by decide)

/-- Claim C10: when the options hold PERM_EXECUTE (and the call context is
valid: BTI handle with MAP, aligned offset and size, VMO handle with MAP, and
WRITE present whenever PERM_WRITE is also requested), the call fails
ACCESS_DENIED exactly when the VMO handle lacks READ — the EXECUTE right of
the handle plays no role. -/
theorem bti_pin_execute_checks_read (btiR vmoR : Nat) (contig : Bool)
    (offset size options : Nat)
    (hbti : rightsContains btiR Rights.MAP = true)
    (hoff : page_aligned offset = true) (hsz : page_aligned size = true)
    (hmap : rightsContains vmoR Rights.MAP = true)
    (hex : optContains (from_bits_truncate options) BtiOptions.PERM_EXECUTE = true)
    (hwr : optContains (from_bits_truncate options) BtiOptions.PERM_WRITE = true →
      rightsContains vmoR Rights.WRITE = true) :
    (sys_bti_pin (some btiR) options (some (vmoR, contig)) offset size =
      Outcome.err ZxError.ACCESS_DENIED) ↔
    rightsContains vmoR Rights.READ = false := by
  cases hrd : rightsContains vmoR Rights.READ with
  | false =>
    simp only [iff_true_intro rfl, iff_true]
    cases hR : optContains (from_bits_truncate options) BtiOptions.PERM_READ <;>
      simp [sys_bti_pin, get_object_with_rights, hbti, hoff, hsz, hmap, hrd, hR, hex]
  | true =>
    simp only [Bool.true_eq_false, iff_false]
    intro h
    cases hW : optContains (from_bits_truncate options) BtiOptions.PERM_WRITE <;>
    cases hcc : optContains (from_bits_truncate options) BtiOptions.COMPRESS <;>
    cases hcg : optContains (from_bits_truncate options) BtiOptions.CONTIGUOUS <;>
    cases contig <;>
      simp_all [sys_bti_pin, get_object_with_rights, hbti, hoff, hsz, hmap, hrd, hex]

/-- Claim C10 witness: with rights MAP and EXECUTE but no READ and options
PERM_EXECUTE, the call is ACCESS_DENIED (the iff instantiated at a handle
that holds EXECUTE). -/
theorem bti_pin_execute_checks_read_witness :
    (sys_bti_pin (some Rights.MAP) BtiOptions.PERM_EXECUTE
      (some (Rights.MAP ||| Rights.EXECUTE, true)) 0 4096 =
      Outcome.err ZxError.ACCESS_DENIED) ↔
    rightsContains (Rights.MAP ||| Rights.EXECUTE) Rights.READ = false :=
  bti_pin_execute_checks_read Rights.MAP (Rights.MAP ||| Rights.EXECUTE) true 0 4096
    BtiOptions.PERM_EXECUTE (by decide) (by decide) (by decide) (by decide)
    (by decide) (by decide)

end ZCore
